import Mathlib

/-!
Verification development for a two-sided creature battle engine.

The engine consists of:
* an item-effect resolver (`getToolEffect`, `getSpellEffect`) turning a
  tool/spell descriptor into a numeric effect payload;
* a combat resolver (`calculateDamage`, `processAttack`) computing the outcome
  of one attack;
* battle-core operations (`applyTool`, `applySpell`, `defendCreature`);
* the battle state machine (reducer plus guarded action callbacks) that owns
  the canonical battle state, accepts intents, ticks ongoing effects, draws
  cards, regenerates energy and evaluates win/loss.

JavaScript numbers are modelled as exact rationals; `Math.round` is
`jsRound` (floor of x + 1/2, matching JS round-half-up), `Math.floor` is the
integer floor, and the JS falsy-fallback `x || d` on numbers is `jsOr`.
Randomness (variance, critical roll, dodge roll) is passed explicitly as a
`Rolls` record.  Fields of records that the engine never reads (numeric ids of
effects, icon and description strings) are omitted; log-message strings are
built by concatenation following the source text.  A thrown JS `TypeError`
is modelled with `Except`.
-/

namespace Battle

/-- JS Math.round: round half toward positive infinity. -/
def jsRound (q : ℚ) : ℤ := ⌊q + 1/2⌋

/-- JS numeric falsy fallback `x || d`: a zero value falls back to `d`. -/
def jsOr (x d : ℚ) : ℚ := if x = 0 then d else x

/-- Base attribute set of a creature. -/
structure BaseStats where
  energy : ℚ
  strength : ℚ
  magic : ℚ
  stamina : ℚ
  speed : ℚ
deriving Repr, DecidableEq

/-- Derived combat stats of a creature (`battleStats`). -/
structure BattleStats where
  physicalAttack : ℚ
  magicalAttack : ℚ
  physicalDefense : ℚ
  magicalDefense : ℚ
  maxHealth : ℚ
  initiative : ℚ
  criticalChance : ℚ
  dodgeChance : ℚ
  energyCost : ℚ
deriving Repr, DecidableEq

/-- Keys of the `battleStats` record that a stat-delta map can address. -/
inductive StatKey
  | physicalAttack
  | magicalAttack
  | physicalDefense
  | magicalDefense
  | maxHealth
  | initiative
  | criticalChance
  | dodgeChance
  | energyCost
deriving Repr, DecidableEq

/-- Read a `battleStats` field by key. -/
def getStat (bs : BattleStats) : StatKey → ℚ
  | .physicalAttack => bs.physicalAttack
  | .magicalAttack => bs.magicalAttack
  | .physicalDefense => bs.physicalDefense
  | .magicalDefense => bs.magicalDefense
  | .maxHealth => bs.maxHealth
  | .initiative => bs.initiative
  | .criticalChance => bs.criticalChance
  | .dodgeChance => bs.dodgeChance
  | .energyCost => bs.energyCost

/-- Write a `battleStats` field by key. -/
def setStat (bs : BattleStats) : StatKey → ℚ → BattleStats
  | .physicalAttack, v => { bs with physicalAttack := v }
  | .magicalAttack, v => { bs with magicalAttack := v }
  | .physicalDefense, v => { bs with physicalDefense := v }
  | .magicalDefense, v => { bs with magicalDefense := v }
  | .maxHealth, v => { bs with maxHealth := v }
  | .initiative, v => { bs with initiative := v }
  | .criticalChance, v => { bs with criticalChance := v }
  | .dodgeChance, v => { bs with dodgeChance := v }
  | .energyCost, v => { bs with energyCost := v }

/-- A stat-delta map (`statChanges` / `statEffect`): an ordered list of
key-delta entries, mirroring `Object.entries` iteration. -/
def StatChanges : Type := List (StatKey × ℚ)

/-- Apply each entry of a stat-delta map: `battleStats[stat] += value`. -/
def applyStatChanges (bs : BattleStats) (l : List (StatKey × ℚ)) : BattleStats :=
  l.foldl (fun b p => setStat b p.1 (getStat b p.1 + p.2)) bs

/-- An active status effect attached to a creature. -/
structure Effect where
  name : String
  duration : ℤ
  statEffect : Option (List (StatKey × ℚ))
  healthEffect : ℚ
deriving Repr, DecidableEq

/-- A battle-ready creature. -/
structure Creature where
  id : ℕ
  species_name : String
  stats : Option BaseStats
  battleStats : BattleStats
  currentHealth : ℚ
  activeEffects : List Effect
  isDefending : Bool
deriving Repr, DecidableEq

/-- The attribute family targeted by a tool or spell; `other` stands for any
unrecognized or missing type string. -/
inductive ItemType
  | energy
  | strength
  | magic
  | stamina
  | speed
  | other
deriving Repr, DecidableEq

/-- The effect kind of a tool or spell; `other` stands for any unrecognized or
missing effect string (the switch default). -/
inductive ItemEffectKind
  | Surge
  | Shield
  | Echo
  | Drain
  | Charge
  | other
deriving Repr, DecidableEq

/-- A tool descriptor. -/
structure Tool where
  id : ℕ
  name : String
  tool_type : ItemType
  tool_effect : ItemEffectKind
deriving Repr, DecidableEq

/-- A spell descriptor. -/
structure Spell where
  id : ℕ
  name : String
  spell_type : ItemType
  spell_effect : ItemEffectKind
deriving Repr, DecidableEq

/-- The charge-up record a Charge tool produces. -/
structure ChargeEffect where
  targetStat : Option StatKey
  perTurnBonus : ℚ
  maxTurns : ℕ
deriving Repr, DecidableEq

/-- A tool effect payload. -/
structure ToolEffect where
  statChanges : Option (List (StatKey × ℚ)) := none
  healthChange : ℚ := 0
  chargeEffect : Option ChargeEffect := none
  duration : ℤ
deriving Repr, DecidableEq

/-- Base tool effects keyed by the tool type; an unrecognized type falls back
to a bare record with duration 3 and no stat changes. -/
def toolBaseEffect : ItemType → ToolEffect
  | .energy => { statChanges := some [(.energyCost, -1)], duration := 3 }
  | .strength => { statChanges := some [(.physicalAttack, 5)], duration := 3 }
  | .magic => { statChanges := some [(.magicalAttack, 5)], duration := 3 }
  | .stamina => { statChanges := some [(.physicalDefense, 5)], healthChange := 10, duration := 3 }
  | .speed => { statChanges := some [(.initiative, 5), (.dodgeChance, 3)], duration := 3 }
  | .other => { statChanges := none, duration := 3 }

/-- `getToolEffect` from itemEffects.js.  The Surge, Echo and Charge branches
iterate the base statChanges object; when the tool type is unrecognized that
object is absent and the JS code throws a TypeError, modelled as `.error`. -/
def getToolEffect (tool : Tool) : Except String ToolEffect :=
  let base := toolBaseEffect tool.tool_type
  match tool.tool_effect with
  | .Surge =>
    match base.statChanges with
    | none => .error "TypeError"
    | some l => .ok { base with statChanges := some (l.map fun p => (p.1, p.2 * 2)), duration := 1 }
  | .Shield =>
    .ok { statChanges := some [(.physicalDefense, 8), (.magicalDefense, 8)], duration := 3 }
  | .Echo =>
    match base.statChanges with
    | none => .error "TypeError"
    | some l => .ok { base with statChanges := some (l.map fun p => (p.1, (jsRound (p.2 * (7/10)) : ℚ))), duration := 5 }
  | .Drain =>
    .ok { statChanges := some [(.physicalAttack, 7), (.magicalAttack, 7), (.physicalDefense, -3), (.magicalDefense, -3)], duration := 3 }
  | .Charge =>
    match base.statChanges with
    | none => .error "TypeError"
    | some l => .ok { statChanges := some [], chargeEffect := some ⟨(l.map Prod.fst).head?, 3, 3⟩, duration := 3 }
  | .other => .ok base

/-- The prepare record a Charge spell produces. -/
structure PrepareEffect where
  name : String
  turns : ℕ
  damage : ℚ
deriving Repr, DecidableEq

/-- A spell effect payload.  Numeric fields absent in the JS object are 0,
which the engine treats identically (falsy checks / `|| 0`). -/
structure SpellEffect where
  statChanges : Option (List (StatKey × ℚ)) := none
  damage : ℚ := 0
  healing : ℚ := 0
  healthOverTime : ℚ := 0
  selfHeal : ℚ := 0
  energyGain : ℚ := 0
  prepareEffect : Option PrepareEffect := none
  duration : ℤ
deriving Repr, DecidableEq

/-- Base spell effects keyed by the spell type, scaled by the caster magic
power multiplier. -/
def spellBaseEffect (magicPower : ℚ) : ItemType → SpellEffect
  | .energy => { statChanges := some [(.energyCost, -2)], energyGain := 5, duration := 2 }
  | .strength => { damage := 15 * magicPower, statChanges := some [(.physicalAttack, 7)], duration := 2 }
  | .magic => { statChanges := some [(.magicalAttack, 7), (.magicalDefense, 3)], duration := 2 }
  | .stamina => { healing := 20 * magicPower, statChanges := some [(.physicalDefense, 5)], duration := 2 }
  | .speed => { statChanges := some [(.initiative, 7), (.dodgeChance, 5), (.criticalChance, 5)], duration := 2 }
  | .other => { duration := 2 }

/-- `getSpellEffect` from itemEffects.js: total for every spell descriptor. -/
def getSpellEffect (spell : Spell) (casterMagic : ℚ) : SpellEffect :=
  let magicPower := 1 + casterMagic * (1/10)
  let base := spellBaseEffect magicPower spell.spell_type
  match spell.spell_effect with
  | .Surge => { damage := base.damage * 2, duration := 0 }
  | .Shield =>
    { statChanges := some [(.physicalDefense, 10), (.magicalDefense, 10)],
      healing := 10 * magicPower, duration := 2 }
  | .Echo =>
    { healthOverTime :=
        if base.healing ≠ 0 then (jsRound ((base.healing / 3) * magicPower) : ℚ)
        else if base.damage ≠ 0 then (jsRound (-(base.damage / 3) * magicPower) : ℚ)
        else 0,
      duration := 3 }
  | .Drain => { damage := 12 * magicPower, selfHeal := 6 * magicPower, duration := 0 }
  | .Charge => { prepareEffect := some ⟨"Charging", 1, 25 * magicPower⟩, duration := 1 }
  | .other => base

/-- Physical or magical attack. -/
inductive AttackType
  | physical
  | magical
deriving Repr, DecidableEq

/-- The `attackType` argument of `processAttack`: the string literal
`physical`/`magical`, or `auto` (the default). -/
inductive AttackTypeArg
  | auto
  | explicitType (t : AttackType)
deriving Repr, DecidableEq

/-- The three random draws used by `calculateDamage`: variance is
`0.9 + Math.random() * 0.2`, the critical and dodge rolls are
`Math.random() * 100`. -/
structure Rolls where
  variance : ℚ
  criticalRoll : ℚ
  dodgeRoll : ℚ
deriving Repr, DecidableEq

/-- Result record of `calculateDamage`. -/
structure DamageResult where
  damage : ℤ
  isDodged : Bool
  isCritical : Bool
  effectiveness : String
deriving Repr, DecidableEq

/-- `getEffectivenessMultiplier` from battleCalculations.js.  Missing base
stats (the JS call sites pass `stats || {}`, on which every comparison with
undefined is false) yield the normal multiplier 1. -/
def getEffectivenessMultiplier (attackType : AttackType) (attackerStats defenderStats : Option BaseStats) : ℚ :=
  match attackerStats, defenderStats with
  | _, none => 1
  | _, some d =>
    match attackType with
    | .physical =>
      if d.stamina > d.energy then 3/2
      else if d.magic > d.stamina then 3/4
      else 1
    | .magical =>
      if d.speed > d.strength then 3/2
      else if d.energy > d.magic then 3/4
      else 1

/-- `getEffectivenessText` from battleCalculations.js. -/
def getEffectivenessText (multiplier : ℚ) : String :=
  if multiplier ≥ 3/2 then "super effective"
  else if multiplier ≤ 3/4 then "not very effective"
  else "normal"

/-- The attack value used by an attack of the given type. -/
def attackValueOf (attacker : Creature) : AttackType → ℚ
  | .physical => attacker.battleStats.physicalAttack
  | .magical => attacker.battleStats.magicalAttack

/-- The defense value used against an attack of the given type. -/
def defenseValueOf (defender : Creature) : AttackType → ℚ
  | .physical => defender.battleStats.physicalDefense
  | .magical => defender.battleStats.magicalDefense

/-- `calculateDamage` from battleCalculations.js, for creatures carrying
derived battle stats.  The critical and dodge chances fall back to 5 and 3
when the stored chance is 0 (JS `|| 5` / `|| 3` on a falsy number). -/
def calculateDamage (attacker defender : Creature) (attackType : AttackType) (r : Rolls) : DamageResult :=
  let attackValue := attackValueOf attacker attackType
  let defenseValue := defenseValueOf defender attackType
  let effectivenessMultiplier := getEffectivenessMultiplier attackType attacker.stats defender.stats
  let isCritical : Bool := decide (r.criticalRoll ≤ jsOr attacker.battleStats.criticalChance 5)
  let criticalMultiplier : ℚ := if isCritical then 3/2 else 1
  let isDodged : Bool := decide (r.dodgeRoll ≤ jsOr defender.battleStats.dodgeChance 3)
  if isDodged then
    { damage := 0, isDodged := true, isCritical := false, effectiveness := "normal" }
  else
    let rawDamage := attackValue * effectivenessMultiplier * r.variance * criticalMultiplier
    { damage := max 1 (jsRound (rawDamage - defenseValue)),
      isDodged := false,
      isCritical := isCritical,
      effectiveness := getEffectivenessText effectivenessMultiplier }

/-- Attack-type resolution inside `processAttack`: `auto` picks physical when
the physical attack stat is at least the magical one. -/
def processAttackType (attacker : Creature) : AttackTypeArg → AttackType
  | .auto =>
    if attacker.battleStats.physicalAttack ≥ attacker.battleStats.magicalAttack
    then .physical else .magical
  | .explicitType t => t

/-- Result record of `processAttack`. -/
structure AttackResult where
  updatedAttacker : Creature
  updatedDefender : Creature
  battleLog : String
  damageResult : DamageResult
deriving Repr, DecidableEq

/-- `processAttack` from battleCore.js, for creatures carrying battle stats:
resolve the attack type, compute damage, apply it to the defender clamped at
0 when the attack is not dodged, and build the log message. -/
def processAttack (attacker defender : Creature) (attackType : AttackTypeArg) (r : Rolls) : AttackResult :=
  let atype := processAttackType attacker attackType
  let damageResult := calculateDamage attacker defender atype r
  let defenderClone :=
    if damageResult.isDodged then defender
    else { defender with currentHealth := max 0 (defender.currentHealth - (damageResult.damage : ℚ)) }
  let typeText := match atype with
    | .physical => "physical"
    | .magical => "magical"
  let logMessage :=
    if damageResult.isDodged then
      attacker.species_name ++ " attack was dodged by " ++ defender.species_name ++ "!"
    else
      attacker.species_name ++ " used " ++ typeText ++ " attack on " ++ defender.species_name
        ++ (if damageResult.isCritical then " (Critical Hit!)" else "")
        ++ (if damageResult.effectiveness ≠ "normal" then " - " ++ damageResult.effectiveness ++ "!" else "")
        ++ " dealing " ++ toString damageResult.damage ++ " damage."
        ++ (if defenderClone.currentHealth ≤ 0 then " " ++ defenderClone.species_name ++ " was defeated!" else "")
  { updatedAttacker := attacker,
    updatedDefender := defenderClone,
    battleLog := logMessage,
    damageResult := damageResult }

/-- Result record of `applyTool`. -/
structure ToolResult where
  updatedCreature : Creature
  toolEffect : ToolEffect
deriving Repr, DecidableEq

/-- `applyTool` from battleCore.js: resolve the tool effect (propagating the
TypeError of `getToolEffect`), apply its stat changes to `battleStats`, store
an active effect when the duration is positive, and apply a positive direct
healing clamped at max health. -/
def applyTool (creature : Creature) (tool : Tool) : Except String ToolResult :=
  match getToolEffect tool with
  | .error e => .error e
  | .ok toolEffect =>
    let c1 := match toolEffect.statChanges with
      | some l => { creature with battleStats := applyStatChanges creature.battleStats l }
      | none => creature
    let c2 :=
      if toolEffect.duration > 0 then
        { c1 with activeEffects := c1.activeEffects ++
            [{ name := tool.name, duration := toolEffect.duration,
               statEffect := toolEffect.statChanges, healthEffect := toolEffect.healthChange }] }
      else c1
    let c3 :=
      if toolEffect.healthChange ≠ 0 ∧ toolEffect.healthChange > 0 then
        { c2 with currentHealth := min (c2.currentHealth + toolEffect.healthChange) c2.battleStats.maxHealth }
      else c2
    .ok { updatedCreature := c3, toolEffect := toolEffect }

/-- Result record of `applySpell`; `spellEffect` is null when the caster has
no base stats. -/
structure SpellResult where
  updatedCaster : Creature
  updatedTarget : Creature
  spellEffect : Option SpellEffect
deriving Repr, DecidableEq

/-- `applySpell` from battleCore.js: with the caster's magic, resolve the
spell payload; apply its direct damage (clamped at 0) and healing (clamped at
max health) to the target; store an active effect when the duration is
positive.  The caster is returned unchanged - in particular the `selfHeal`
field of the payload is never read. -/
def applySpell (caster target : Creature) (spell : Spell) : SpellResult :=
  match caster.stats with
  | none => { updatedCaster := caster, updatedTarget := target, spellEffect := none }
  | some cst =>
    let spellEffect := getSpellEffect spell cst.magic
    let t1 :=
      if spellEffect.damage ≠ 0 then
        { target with currentHealth := max 0 (target.currentHealth - spellEffect.damage) }
      else target
    let t2 :=
      if spellEffect.healing ≠ 0 then
        { t1 with currentHealth := min (t1.currentHealth + spellEffect.healing) t1.battleStats.maxHealth }
      else t1
    let t3 :=
      if spellEffect.duration > 0 then
        { t2 with activeEffects := t2.activeEffects ++
            [{ name := spell.name, duration := spellEffect.duration,
               statEffect := spellEffect.statChanges, healthEffect := spellEffect.healthOverTime }] }
      else t2
    { updatedCaster := caster, updatedTarget := t3, spellEffect := some spellEffect }

/-- `defendCreature` from battleCore.js: set the defending flag, boost both
defenses by 50 percent (rounded), and record a one-turn defending effect whose
statEffect holds half of the already-boosted defenses. -/
def defendCreature (creature : Creature) : Creature :=
  let boosted :=
    { creature.battleStats with
      physicalDefense := (jsRound (creature.battleStats.physicalDefense * (3/2)) : ℚ),
      magicalDefense := (jsRound (creature.battleStats.magicalDefense * (3/2)) : ℚ) }
  { creature with
    isDefending := true,
    battleStats := boosted,
    activeEffects := creature.activeEffects ++
      [{ name := "Defending", duration := 1,
         statEffect := some [(.physicalDefense, (jsRound (boosted.physicalDefense * (1/2)) : ℚ)),
                             (.magicalDefense, (jsRound (boosted.magicalDefense * (1/2)) : ℚ))],
         healthEffect := 0 }] }

/-- Battle difficulty; `other` stands for any unknown difficulty string. -/
inductive Difficulty
  | easy
  | medium
  | hard
  | expert
  | other
deriving Repr, DecidableEq

/-- Per-difficulty settings record from difficultySettings.js. -/
structure DifficultySettings where
  enemyStatsMultiplier : ℚ
  levelMin : ℕ
  levelMax : ℕ
  rarityCommon : ℚ
  rarityRare : ℚ
  rarityEpic : ℚ
  rarityLegendary : ℚ
  initialHandSize : ℕ
  enemyDeckSize : ℕ
  maxFieldSize : ℕ
  enemyAILevel : ℕ
  enemyEnergyRegen : ℕ
  rewardMultiplier : ℚ
deriving Repr, DecidableEq

/-- The medium settings record (also the fallback for unknown difficulty). -/
def mediumSettings : DifficultySettings :=
  { enemyStatsMultiplier := 1, levelMin := 1, levelMax := 2,
    rarityCommon := 1/2, rarityRare := 3/10, rarityEpic := 1/5, rarityLegendary := 0,
    initialHandSize := 3, enemyDeckSize := 4, maxFieldSize := 4,
    enemyAILevel := 2, enemyEnergyRegen := 3, rewardMultiplier := 1 }

/-- `getDifficultySettings` from difficultySettings.js: an unknown difficulty
falls back to medium. -/
def getDifficultySettings : Difficulty → DifficultySettings
  | .easy =>
    { enemyStatsMultiplier := 4/5, levelMin := 0, levelMax := 1,
      rarityCommon := 7/10, rarityRare := 3/10, rarityEpic := 0, rarityLegendary := 0,
      initialHandSize := 2, enemyDeckSize := 3, maxFieldSize := 3,
      enemyAILevel := 1, enemyEnergyRegen := 2, rewardMultiplier := 1/2 }
  | .medium => mediumSettings
  | .hard =>
    { enemyStatsMultiplier := 6/5, levelMin := 1, levelMax := 3,
      rarityCommon := 1/5, rarityRare := 2/5, rarityEpic := 3/10, rarityLegendary := 1/10,
      initialHandSize := 3, enemyDeckSize := 5, maxFieldSize := 5,
      enemyAILevel := 3, enemyEnergyRegen := 4, rewardMultiplier := 3/2 }
  | .expert =>
    { enemyStatsMultiplier := 3/2, levelMin := 2, levelMax := 3,
      rarityCommon := 0, rarityRare := 3/10, rarityEpic := 1/2, rarityLegendary := 1/5,
      initialHandSize := 4, enemyDeckSize := 6, maxFieldSize := 6,
      enemyAILevel := 4, enemyEnergyRegen := 5, rewardMultiplier := 2 }
  | .other => mediumSettings

/-- Game phase (`gameState` in BattleGame.jsx). -/
inductive GameState
  | setup
  | battle
  | victory
  | defeat
deriving Repr, DecidableEq

/-- The two sides. -/
inductive Side
  | player
  | enemy
deriving Repr, DecidableEq

/-- A battle-log entry. -/
structure LogEntry where
  turn : ℕ
  message : String
deriving Repr, DecidableEq

/-- The canonical battle state owned by the BattleGame reducer. -/
structure BattleState where
  gameState : GameState
  turn : ℕ
  activePlayer : Side
  playerDeck : List Creature
  playerHand : List Creature
  playerField : List Creature
  playerEnergy : ℚ
  playerTools : List Tool
  playerSpells : List Spell
  enemyDeck : List Creature
  enemyHand : List Creature
  enemyField : List Creature
  enemyEnergy : ℚ
  battleLog : List LogEntry
deriving Repr, DecidableEq

/-- `addToBattleLog` / the ADD_LOG reducer case: append an entry carrying the
current turn number. -/
def addLog (s : BattleState) (message : String) : BattleState :=
  { s with battleLog := s.battleLog ++ [{ turn := s.turn, message := message }] }

/-- `checkWinCondition`: all enemy creatures gone from field, hand and deck. -/
def checkWinCondition (s : BattleState) : Bool :=
  s.enemyField.length == 0 && s.enemyHand.length == 0 && s.enemyDeck.length == 0

/-- `checkLossCondition`: all player creatures gone from field, hand and deck. -/
def checkLossCondition (s : BattleState) : Bool :=
  s.playerField.length == 0 && s.playerHand.length == 0 && s.playerDeck.length == 0

/-- The win/loss evaluation effect: in battle, victory is checked first, then
defeat. -/
def evaluateWinLoss (s : BattleState) : BattleState :=
  if s.gameState ≠ .battle then s
  else if checkWinCondition s then
    addLog { s with gameState := .victory } "Victory! You have defeated all enemy creatures!"
  else if checkLossCondition s then
    addLog { s with gameState := .defeat } "Defeat! All your creatures have been defeated!"
  else s

/-- `deployCreature` (player deploy callback plus the DEPLOY_CREATURE reducer
case): rejected with a log entry when the field already holds 3 creatures or
energy is insufficient. -/
def deployCreature (s : BattleState) (creature : Creature) : BattleState :=
  if s.playerField.length ≥ 3 then
    addLog s "Your battlefield is full! Cannot deploy more creatures."
  else
    let energyCost := jsOr creature.battleStats.energyCost 3
    if s.playerEnergy < energyCost then
      addLog s ("Not enough energy to deploy " ++ creature.species_name ++ ". Needs " ++ toString energyCost ++ " energy.")
    else
      let s1 := { s with
        playerHand := s.playerHand.filter fun c => c.id != creature.id,
        playerField := s.playerField ++ [creature],
        playerEnergy := s.playerEnergy - energyCost }
      addLog s1 ("You deployed " ++ creature.species_name ++ " to the battlefield! (-" ++ toString energyCost ++ " energy)")

/-- The attack-type computation of the `attackCreature` callback in
BattleGame.jsx (note: strict greater-than, unlike `processAttackType`). -/
def attackCreatureAttackType (attacker : Creature) : AttackType :=
  if attacker.battleStats.physicalAttack > attacker.battleStats.magicalAttack
  then .physical else .magical

/-- `attackCreature` callback plus the ATTACK reducer case. -/
def attackCreature (s : BattleState) (attacker defender : Creature) (r : Rolls) : BattleState :=
  let attackType := attackCreatureAttackType attacker
  let res := processAttack attacker defender (.explicitType attackType) r
  let isPlayerAttacker := s.playerField.any fun c => c.id == res.updatedAttacker.id
  let isPlayerDefender := s.playerField.any fun c => c.id == res.updatedDefender.id
  let s1 := { s with
    playerField := s.playerField.map fun c =>
      if isPlayerAttacker && c.id == res.updatedAttacker.id then res.updatedAttacker
      else if isPlayerDefender && c.id == res.updatedDefender.id then res.updatedDefender
      else c,
    enemyField := s.enemyField.map fun c =>
      if !isPlayerAttacker && c.id == res.updatedAttacker.id then res.updatedAttacker
      else if !isPlayerDefender && c.id == res.updatedDefender.id then res.updatedDefender
      else c }
  addLog s1 res.battleLog

/-- `useTool` callback plus the USE_TOOL reducer case.  When `applyTool`
throws (TypeError inside `getToolEffect`), no dispatch happens and the state
is unchanged. -/
def useTool (s : BattleState) (tool : Tool) (targetCreature : Creature) : BattleState :=
  match applyTool targetCreature tool with
  | .error _ => s
  | .ok result =>
    let isPlayerToolTarget := s.playerField.any fun c => c.id == result.updatedCreature.id
    let s1 := { s with
      playerField :=
        if isPlayerToolTarget then
          s.playerField.map fun c => if c.id == result.updatedCreature.id then result.updatedCreature else c
        else s.playerField,
      enemyField :=
        if !isPlayerToolTarget then
          s.enemyField.map fun c => if c.id == result.updatedCreature.id then result.updatedCreature else c
        else s.enemyField,
      playerTools := s.playerTools.filter fun t => t.id != tool.id }
    addLog s1 (tool.name ++ " was used on " ++ (if isPlayerToolTarget then "" else "enemy ") ++ targetCreature.species_name ++ ".")

/-- `useSpell` callback plus the USE_SPELL reducer case; spells cost a flat 4
energy and are rejected when energy is short. -/
def useSpell (s : BattleState) (spell : Spell) (caster : Creature) (target : Option Creature) : BattleState :=
  let energyCost : ℚ := 4
  if s.playerEnergy < energyCost then
    addLog s ("Not enough energy to cast " ++ spell.name ++ ". Needs " ++ toString energyCost ++ " energy.")
  else
    let spellResult := applySpell caster (target.getD caster) spell
    let isPlayerCaster := s.playerField.any fun c => c.id == spellResult.updatedCaster.id
    let isPlayerTarget := s.playerField.any fun c => c.id == spellResult.updatedTarget.id
    let s1 := { s with
      playerField := s.playerField.map fun c =>
        if isPlayerCaster && c.id == spellResult.updatedCaster.id then spellResult.updatedCaster
        else if isPlayerTarget && c.id == spellResult.updatedTarget.id then spellResult.updatedTarget
        else c,
      enemyField := s.enemyField.map fun c =>
        if !isPlayerCaster && c.id == spellResult.updatedCaster.id then spellResult.updatedCaster
        else if !isPlayerTarget && c.id == spellResult.updatedTarget.id then spellResult.updatedTarget
        else c,
      playerEnergy := s.playerEnergy - energyCost,
      playerSpells := s.playerSpells.filter fun sp => sp.id != spell.id }
    addLog s1 (caster.species_name ++ " cast " ++ spell.name ++ ". (-" ++ toString energyCost ++ " energy)")

/-- `defendCreatureAction` callback plus the DEFEND reducer case. -/
def defendCreatureAction (s : BattleState) (creature : Creature) : BattleState :=
  let updatedCreature := defendCreature creature
  let isPlayerDefending := s.playerField.any fun c => c.id == updatedCreature.id
  let s1 := { s with
    playerField :=
      if isPlayerDefending then
        s.playerField.map fun c => if c.id == updatedCreature.id then updatedCreature else c
      else s.playerField,
    enemyField :=
      if !isPlayerDefending then
        s.enemyField.map fun c => if c.id == updatedCreature.id then updatedCreature else c
      else s.enemyField }
  addLog s1 ((if isPlayerDefending then "" else "Enemy ") ++ creature.species_name ++ " took a defensive stance!")

/-- The DRAW_CARD reducer case: move the top deck card to the hand. -/
def drawCard (s : BattleState) : Side → BattleState
  | .player =>
    match s.playerDeck with
    | [] => s
    | drawn :: rest => { s with playerHand := s.playerHand ++ [drawn], playerDeck := rest }
  | .enemy =>
    match s.enemyDeck with
    | [] => s
    | drawn :: rest => { s with enemyHand := s.enemyHand ++ [drawn], enemyDeck := rest }

/-- One step of the energy-bonus accumulation in `regenerateEnergy`: each
field creature with a base energy attribute adds the floor of one fifth of
it. -/
def regenBonusStep (acc : ℚ) (creature : Creature) : ℚ :=
  match creature.stats with
  | some st => if st.energy ≠ 0 then acc + ((⌊st.energy * (1/5)⌋ : ℤ) : ℚ) else acc
  | none => acc

/-- The per-side energy bonus of `regenerateEnergy`: the sum over the field of
the per-creature floors. -/
def regenBonus (field : List Creature) : ℚ :=
  field.foldl regenBonusStep 0

/-- `regenerateEnergy` callback plus the REGENERATE_ENERGY reducer case: both
sides gain base 4 plus their field bonus, capped at 15. -/
def regenerateEnergy (s : BattleState) : BattleState :=
  let playerRegen := 4 + regenBonus s.playerField
  let enemyRegen := 4 + regenBonus s.enemyField
  let s1 := { s with
    playerEnergy := min 15 (s.playerEnergy + playerRegen),
    enemyEnergy := min 15 (s.enemyEnergy + enemyRegen) }
  match s.activePlayer with
  | .player => addLog s1 ("You gained +" ++ toString playerRegen ++ " energy.")
  | .enemy => addLog s1 ("Enemy gained +" ++ toString enemyRegen ++ " energy.")

/-- Per-effect health update of the BattleGame effect tick: each effect with a
nonzero healthEffect moves the current health by it, clamped into
[0, maxHealth]. -/
def tickHealth (maxHealth h : ℚ) (effects : List Effect) : ℚ :=
  effects.foldl (fun h e => if e.healthEffect ≠ 0 then min maxHealth (max 0 (h + e.healthEffect)) else h) h

/-- Per-creature part of the BattleGame `applyOngoingEffects` tick: apply
health effects, decrement durations, drop expired effects, clear the
defending flag.  Battle stats are not touched. -/
def tickCreature (c : Creature) : Creature :=
  { c with
    currentHealth := tickHealth c.battleStats.maxHealth c.currentHealth c.activeEffects,
    activeEffects := (c.activeEffects.map fun e => { e with duration := e.duration - 1 }).filter fun e => e.duration > 0,
    isDefending := false }

/-- `applyOngoingEffects` callback of BattleGame.jsx plus the
APPLY_ONGOING_EFFECTS reducer case: tick every field creature, then remove the
creatures whose health dropped to 0, logging the defeated counts. -/
def applyOngoingEffects (s : BattleState) : BattleState :=
  let updatedPlayerField := s.playerField.map tickCreature
  let updatedEnemyField := s.enemyField.map tickCreature
  let alivePlayerCreatures := updatedPlayerField.filter fun c => c.currentHealth > 0
  let aliveEnemyCreatures := updatedEnemyField.filter fun c => c.currentHealth > 0
  let s1 :=
    if alivePlayerCreatures.length < updatedPlayerField.length then
      addLog s (toString (updatedPlayerField.length - alivePlayerCreatures.length) ++ " of your creatures were defeated!")
    else s
  let s2 :=
    if aliveEnemyCreatures.length < updatedEnemyField.length then
      addLog s1 (toString (updatedEnemyField.length - aliveEnemyCreatures.length) ++ " enemy creatures were defeated!")
    else s1
  { s2 with playerField := alivePlayerCreatures, enemyField := aliveEnemyCreatures }

/-- The deploy case of `handleEnemyTurn`: re-check energy, then dispatch
ENEMY_DEPLOY_CREATURE and log. -/
def enemyDeployCreature (s : BattleState) (creature : Creature) : BattleState :=
  let energyCost := jsOr creature.battleStats.energyCost 3
  if s.enemyEnergy < energyCost then
    addLog s "Enemy does not have enough energy to deploy"
  else
    let s1 := { s with
      enemyHand := s.enemyHand.filter fun c => c.id != creature.id,
      enemyField := s.enemyField ++ [creature],
      enemyEnergy := s.enemyEnergy - energyCost }
    addLog s1 ("Enemy deployed " ++ creature.species_name ++ " to the battlefield! (-" ++ toString energyCost ++ " energy)")

/-- Labels for the phases a turn-boundary step performs, in the order the code
dispatches them. -/
inductive PhaseStep
  | winLossCheck
  | effectTick
  | incrementTurnStep
  | switchSide
  | drawPlayer
  | drawEnemy
  | regenerateEnergyStep
deriving Repr, DecidableEq

/-- The endTurn case of `handlePlayerAction`: win/loss check, then the effect
tick, then the switch of the active side to the enemy.  Returns the new state
together with the trace of performed phases in source order. -/
def handleEndTurn (s : BattleState) : BattleState × List PhaseStep :=
  if checkWinCondition s then
    (addLog { s with gameState := .victory } "Victory! You have defeated all enemy creatures!", [.winLossCheck])
  else if checkLossCondition s then
    (addLog { s with gameState := .defeat } "Defeat! All your creatures have been defeated!", [.winLossCheck])
  else
    let s1 := applyOngoingEffects s
    let s2 := addLog { s1 with activePlayer := .enemy } ("Turn " ++ toString s.turn ++ " - Enemy turn.")
    (s2, [.winLossCheck, .effectTick, .switchSide])

/-- The conditional player card draw inside `processEnemyTurn`: draws when the
hand is below 5 and the deck is nonempty, logging the drawn species. -/
def drawPhasePlayer (s : BattleState) : BattleState × List PhaseStep :=
  match s.playerDeck with
  | drawn :: _ =>
    if s.playerHand.length < 5 then
      (addLog (drawCard s .player) ("You drew " ++ drawn.species_name ++ "."), [PhaseStep.drawPlayer])
    else (s, [])
  | [] => (s, [])

/-- The conditional enemy card draw inside `processEnemyTurn`: draws when the
enemy hand is below the difficulty's initial hand size and its deck is
nonempty. -/
def drawPhaseEnemy (difficulty : Difficulty) (s : BattleState) : BattleState × List PhaseStep :=
  if s.enemyHand.length < (getDifficultySettings difficulty).initialHandSize ∧ s.enemyDeck ≠ [] then
    (addLog (drawCard s .enemy) "Enemy drew a card.", [PhaseStep.drawEnemy])
  else (s, [])

/-- The turn-finishing body of `processEnemyTurn` (after the AI action): in
source order, win/loss check, effect tick, turn increment, switch of the
active side back to the player, conditional card draws for both sides, energy
regeneration.  Returns the new state together with the trace of performed
phases. -/
def finishEnemyTurn (difficulty : Difficulty) (s : BattleState) : BattleState × List PhaseStep :=
  if checkWinCondition s then
    (addLog { s with gameState := .victory } "Victory! You have defeated all enemy creatures!", [.winLossCheck])
  else if checkLossCondition s then
    (addLog { s with gameState := .defeat } "Defeat! All your creatures have been defeated!", [.winLossCheck])
  else
    let s1 := applyOngoingEffects s
    let s2 := { s1 with turn := s1.turn + 1 }
    let s3 := { s2 with activePlayer := .player }
    let p4 := drawPhasePlayer s3
    let p5 := drawPhaseEnemy difficulty p4.1
    let s6 := regenerateEnergy p5.1
    let s7 := addLog s6 ("Turn " ++ toString (s.turn + 1) ++ " - Your turn.")
    (s7, [.winLossCheck, .effectTick, .incrementTurnStep, .switchSide] ++ p4.2 ++ p5.2 ++ [.regenerateEnergyStep])

/-- The state transitions of the battle state machine: each constructor is one
guarded callback (or bare reducer case) of BattleGame.jsx. -/
inductive BattleAction
  | deploy (creature : Creature)
  | enemyDeploy (creature : Creature)
  | attack (attacker defender : Creature) (r : Rolls)
  | useTool (tool : Tool) (target : Creature)
  | useSpell (spell : Spell) (caster : Creature) (target : Option Creature)
  | defend (creature : Creature)
  | draw (side : Side)
  | regenerate
  | tick
  | setActive (side : Side)
  | incrementTurn
  | setGame (g : GameState)
  | logMessage (m : String)

/-- Apply one state transition. -/
def applyAction (s : BattleState) : BattleAction → BattleState
  | .deploy c => deployCreature s c
  | .enemyDeploy c => enemyDeployCreature s c
  | .attack a d r => attackCreature s a d r
  | .useTool t c => useTool s t c
  | .useSpell sp c t => useSpell s sp c t
  | .defend c => defendCreatureAction s c
  | .draw side => drawCard s side
  | .regenerate => regenerateEnergy s
  | .tick => applyOngoingEffects s
  | .setActive side => { s with activePlayer := side }
  | .incrementTurn => { s with turn := s.turn + 1 }
  | .setGame g => { s with gameState := g }
  | .logMessage m => addLog s m

/-! ## Sample data used by witnesses and counterexamples -/

/-- A physically inclined attacker. -/
def cAttacker : Creature :=
  { id := 1, species_name := "Attacker", stats := some ⟨3, 8, 2, 6, 4⟩,
    battleStats :=
      { physicalAttack := 20, magicalAttack := 10, physicalDefense := 5, magicalDefense := 5,
        maxHealth := 50, initiative := 10, criticalChance := 0, dodgeChance := 0, energyCost := 3 },
    currentHealth := 50, activeEffects := [], isDefending := false }

/-- A stamina-leaning defender. -/
def cDefender : Creature :=
  { id := 2, species_name := "Defender", stats := some ⟨2, 5, 1, 10, 3⟩,
    battleStats :=
      { physicalAttack := 10, magicalAttack := 10, physicalDefense := 5, magicalDefense := 5,
        maxHealth := 40, initiative := 10, criticalChance := 0, dodgeChance := 0, energyCost := 3 },
    currentHealth := 40, activeEffects := [], isDefending := false }

/-- Rolls on which nothing special happens: no critical, no dodge. -/
def rollsPlain : Rolls := ⟨1, 50, 50⟩

/-! ## Combat resolver: damage iff not dodged (C1) -/

/-- The damage result of `processAttack` is exactly the one `calculateDamage`
returns for the resolved attack type. -/
theorem processAttack_damageResult (attacker defender : Creature) (attackType : AttackTypeArg) (r : Rolls) :
    (processAttack attacker defender attackType r).damageResult
      = calculateDamage attacker defender (processAttackType attacker attackType) r := rfl

/-- On a successful dodge roll, `calculateDamage` returns the fixed dodge
result. -/
theorem calculateDamage_dodged (attacker defender : Creature) (ty : AttackType) (r : Rolls)
    (h : r.dodgeRoll ≤ jsOr defender.battleStats.dodgeChance 3) :
    calculateDamage attacker defender ty r
      = { damage := 0, isDodged := true, isCritical := false, effectiveness := "normal" } := by
  unfold calculateDamage
  simp [h]

/-- On a failed dodge roll, `calculateDamage` returns the damage formula
result. -/
theorem calculateDamage_not_dodged (attacker defender : Creature) (ty : AttackType) (r : Rolls)
    (h : ¬ r.dodgeRoll ≤ jsOr defender.battleStats.dodgeChance 3) :
    calculateDamage attacker defender ty r
      = { damage := max 1 (jsRound
            (attackValueOf attacker ty
              * getEffectivenessMultiplier ty attacker.stats defender.stats
              * r.variance
              * (if decide (r.criticalRoll ≤ jsOr attacker.battleStats.criticalChance 5) then 3/2 else 1)
              - defenseValueOf defender ty)),
          isDodged := false,
          isCritical := decide (r.criticalRoll ≤ jsOr attacker.battleStats.criticalChance 5),
          effectiveness := getEffectivenessText (getEffectivenessMultiplier ty attacker.stats defender.stats) } := by
  unfold calculateDamage
  simp [h]

/-- C1: for every resolved attack, the damage is 0 exactly when the dodge roll
succeeded; when the attack is not dodged, the damage equals
max(1, round(attackValue * effectiveness * variance * criticalMultiplier -
defenseValue)), hence is at least 1 even against overwhelming defense. -/
theorem attack_damage_zero_iff_dodged (attacker defender : Creature)
    (attackType : AttackTypeArg) (r : Rolls) :
    ((processAttack attacker defender attackType r).damageResult.damage = 0
      ↔ (processAttack attacker defender attackType r).damageResult.isDodged = true)
    ∧ ((processAttack attacker defender attackType r).damageResult.isDodged = false →
        (processAttack attacker defender attackType r).damageResult.damage
          = max 1 (jsRound
              (attackValueOf attacker (processAttackType attacker attackType)
                * getEffectivenessMultiplier (processAttackType attacker attackType) attacker.stats defender.stats
                * r.variance
                * (if (processAttack attacker defender attackType r).damageResult.isCritical then 3/2 else 1)
                - defenseValueOf defender (processAttackType attacker attackType)))
        ∧ 1 ≤ (processAttack attacker defender attackType r).damageResult.damage) := by
  rw [processAttack_damageResult]
  by_cases hd : r.dodgeRoll ≤ jsOr defender.battleStats.dodgeChance 3
  · rw [calculateDamage_dodged attacker defender (processAttackType attacker attackType) r hd]
    exact ⟨by simp, fun h => by simp at h⟩
  · rw [calculateDamage_not_dodged attacker defender (processAttackType attacker attackType) r hd]
    refine ⟨?_, fun _ => ⟨rfl, le_max_left _ _⟩⟩
    constructor
    · intro h0
      have h1 : (1 : ℤ) ≤ 0 := by rw [← h0]; exact le_max_left _ _
      omega
    · intro hcontra
      simp at hcontra

/-- C1 witness: on plain rolls the sample attack is not dodged and deals at
least 1 damage. -/
theorem attack_damage_zero_iff_dodged_witness :
    (processAttack cAttacker cDefender .auto rollsPlain).damageResult.isDodged = false
    ∧ 1 ≤ (processAttack cAttacker cDefender .auto rollsPlain).damageResult.damage := by
  refine ⟨by decide, ?_⟩
  exact ((attack_damage_zero_iff_dodged cAttacker cDefender .auto rollsPlain).2 (by decide)).2

/-! ## Attack-type selection (C9) -/

/-- A creature whose physical and magical attack are equal. -/
def cTie : Creature :=
  { id := 7, species_name := "Tie", stats := some ⟨5, 5, 5, 5, 5⟩,
    battleStats :=
      { physicalAttack := 10, magicalAttack := 10, physicalDefense := 5, magicalDefense := 5,
        maxHealth := 50, initiative := 10, criticalChance := 5, dodgeChance := 3, energyCost := 3 },
    currentHealth := 50, activeEffects := [], isDefending := false }

/-- C9 counterexample: on a tie between physical and magical attack, the
attackCreature path of the state machine selects a magical attack (strict
greater-than), while processAttack auto-selection would pick physical. -/
theorem attackCreature_tie_selects_magical :
    attackCreatureAttackType cTie = AttackType.magical
    ∧ processAttackType cTie .auto = AttackType.physical := by
  constructor <;> decide

/-- C9 amended: `processAttack` auto-selection picks physical exactly when
physicalAttack is at least magicalAttack (tie: physical), but the
attackCreature callback computes the type with a strict comparison, so it
picks physical exactly when physicalAttack strictly exceeds magicalAttack
(tie: magical). -/
theorem attack_type_selection (c : Creature) :
    (processAttackType c .auto = AttackType.physical
      ↔ c.battleStats.magicalAttack ≤ c.battleStats.physicalAttack)
    ∧ (attackCreatureAttackType c = AttackType.physical
      ↔ c.battleStats.magicalAttack < c.battleStats.physicalAttack) := by
  constructor
  · by_cases h : c.battleStats.magicalAttack ≤ c.battleStats.physicalAttack
    · simp [processAttackType, ge_iff_le, h]
    · simp [processAttackType, ge_iff_le, h]
  · by_cases h : c.battleStats.magicalAttack < c.battleStats.physicalAttack
    · simp [attackCreatureAttackType, h]
    · simp [attackCreatureAttackType, h]

/-! ## Item effect resolver totality (C7) -/

/-- A tool with an unrecognized target type and a Surge effect kind. -/
def badTool : Tool :=
  { id := 11, name := "Mystery", tool_type := .other, tool_effect := .Surge }

/-- C7 counterexample: a tool whose type is unrecognized combined with the
Surge effect kind makes `getToolEffect` throw a TypeError (iterating the
absent base statChanges object) instead of returning a payload. -/
theorem getToolEffect_surge_unknown_type_throws :
    getToolEffect badTool = Except.error "TypeError" := rfl

/-- C7 amended: `getSpellEffect` is total and a missing effect kind falls back
to the base effect of the spell type; `getToolEffect` behaves the same except
that it throws exactly when the tool type is unrecognized and the effect kind
is Surge, Echo or Charge. -/
theorem item_effect_resolver_totality (tool : Tool) (spell : Spell) (casterMagic : ℚ) :
    ((∃ e, getToolEffect tool = Except.error e)
      ↔ (tool.tool_type = ItemType.other
          ∧ (tool.tool_effect = ItemEffectKind.Surge
             ∨ tool.tool_effect = ItemEffectKind.Echo
             ∨ tool.tool_effect = ItemEffectKind.Charge)))
    ∧ (tool.tool_effect = ItemEffectKind.other →
        getToolEffect tool = Except.ok (toolBaseEffect tool.tool_type))
    ∧ (spell.spell_effect = ItemEffectKind.other →
        getSpellEffect spell casterMagic
          = spellBaseEffect (1 + casterMagic * (1/10)) spell.spell_type) := by
  obtain ⟨tid, tname, ttype, teffect⟩ := tool
  obtain ⟨sid, sname, stype, seffect⟩ := spell
  refine ⟨?_, ?_, ?_⟩
  · cases ttype <;> cases teffect <;> simp [getToolEffect, toolBaseEffect]
  · intro h
    cases h
    cases ttype <;> simp [getToolEffect]
  · intro h
    cases h
    rfl

/-- C7 witness: a recognized tool and a spell with missing effect kind resolve
to their base effects. -/
theorem item_effect_resolver_totality_witness :
    getToolEffect { id := 12, name := "Plain", tool_type := .strength, tool_effect := .other }
        = Except.ok (toolBaseEffect .strength)
    ∧ getSpellEffect { id := 13, name := "Mist", spell_type := .stamina, spell_effect := .other } 5
        = spellBaseEffect (1 + 5 * (1/10)) .stamina := by
  exact ⟨(item_effect_resolver_totality ⟨12, "Plain", .strength, .other⟩ ⟨13, "Mist", .stamina, .other⟩ 5).2.1 rfl,
         (item_effect_resolver_totality ⟨12, "Plain", .strength, .other⟩ ⟨13, "Mist", .stamina, .other⟩ 5).2.2 rfl⟩

/-! ## Drain spell (C8) -/

/-- A Drain spell descriptor. -/
def drainSpell : Spell :=
  { id := 21, name := "Drain", spell_type := .magic, spell_effect := .Drain }

/-- A caster with base magic 5, injured (health 30 of 50). -/
def cCaster : Creature :=
  { id := 3, species_name := "Caster", stats := some ⟨4, 2, 5, 3, 2⟩,
    battleStats :=
      { physicalAttack := 10, magicalAttack := 20, physicalDefense := 5, magicalDefense := 5,
        maxHealth := 50, initiative := 10, criticalChance := 5, dodgeChance := 3, energyCost := 3 },
    currentHealth := 30, activeEffects := [], isDefending := false }

/-- C8: the Drain payload carries damage 12 scaled by the magic power 1.5,
a selfHeal of exactly half that damage and duration 0 - but `applySpell`
never reads selfHeal: the target takes the damage while the caster is
returned entirely unchanged (no heal). -/
theorem drain_selfHeal_not_applied :
    (getSpellEffect drainSpell 5).damage = 18
    ∧ (getSpellEffect drainSpell 5).selfHeal = 9
    ∧ (getSpellEffect drainSpell 5).selfHeal = (getSpellEffect drainSpell 5).damage / 2
    ∧ (getSpellEffect drainSpell 5).duration = 0
    ∧ (applySpell cCaster cDefender drainSpell).updatedTarget.currentHealth
        = cDefender.currentHealth - 18
    ∧ (applySpell cCaster cDefender drainSpell).updatedCaster = cCaster := by
  have hse : getSpellEffect drainSpell 5 = { damage := 18, selfHeal := 9, duration := 0 } := by
    simp only [getSpellEffect, drainSpell, SpellEffect.mk.injEq, and_true, true_and]
    norm_num
  refine ⟨by rw [hse], by rw [hse], by rw [hse]; norm_num, by rw [hse], ?_, rfl⟩
  show (applySpell cCaster cDefender drainSpell).updatedTarget.currentHealth
      = cDefender.currentHealth - 18
  simp only [applySpell, cCaster, cDefender, hse]
  norm_num

/-! ## Energy regeneration (C5) -/

/-- A field creature with energy attribute 3. -/
def cEnergy3A : Creature :=
  { id := 31, species_name := "Sparky", stats := some ⟨3, 5, 5, 5, 5⟩,
    battleStats := cTie.battleStats, currentHealth := 50, activeEffects := [], isDefending := false }

/-- A second field creature with energy attribute 3. -/
def cEnergy3B : Creature :=
  { id := 32, species_name := "Zappy", stats := some ⟨3, 5, 5, 5, 5⟩,
    battleStats := cTie.battleStats, currentHealth := 50, activeEffects := [], isDefending := false }

/-- A battle state whose player field holds the two energy-3 creatures. -/
def sRegen : BattleState :=
  { gameState := .battle, turn := 1, activePlayer := .player,
    playerDeck := [], playerHand := [], playerField := [cEnergy3A, cEnergy3B], playerEnergy := 0,
    playerTools := [], playerSpells := [],
    enemyDeck := [], enemyHand := [], enemyField := [], enemyEnergy := 0, battleLog := [] }

/-- Modelled from the spec: the claimed per-side regeneration gain, 4 plus the
floor of 0.2 times the SUM of the energy attributes across the field (stated
for comparison with the implemented per-creature floors). -/
def specRegenGain (field : List Creature) : ℚ :=
  4 + ((⌊(field.foldl (fun acc c => acc + ((c.stats.map BaseStats.energy).getD 0)) 0) * (1/5)⌋ : ℤ) : ℚ)

/-- C5 counterexample: with two field creatures of energy attribute 3 the code
regenerates 4 (each per-creature floor of 0.6 is 0), while the claimed
formula 4 + floor(0.2 * 6) gives 5. -/
theorem regen_not_floor_of_sum :
    (regenerateEnergy sRegen).playerEnergy = 4
    ∧ min 15 (sRegen.playerEnergy + specRegenGain sRegen.playerField) = 5 := by
  have hf0 : (⌊(3 : ℚ) * (1/5)⌋ : ℤ) = 0 := by
    rw [show (3:ℚ) * (1/5) = 3/5 by ring, Int.floor_eq_zero_iff]
    constructor <;> norm_num
  constructor
  · simp only [regenerateEnergy, sRegen, addLog, regenBonus, List.foldl, regenBonusStep,
      cEnergy3A, cEnergy3B]
    norm_num [hf0]
  · simp only [sRegen, specRegenGain, List.foldl, cEnergy3A, cEnergy3B, Option.map, Option.getD]
    norm_num

/-- C5 amended: each regeneration adds, per side, 4 plus the SUM over that
side's field of floor(0.2 * energy_i), capped at 15; for a single field
creature with energy attribute 10 the gain is exactly 6. -/
theorem regenerateEnergy_gain (s : BattleState) :
    (regenerateEnergy s).playerEnergy = min 15 (s.playerEnergy + (4 + regenBonus s.playerField))
    ∧ (regenerateEnergy s).enemyEnergy = min 15 (s.enemyEnergy + (4 + regenBonus s.enemyField))
    ∧ (∀ c st, c.stats = some st → st.energy = 10 → 4 + regenBonus [c] = 6) := by
  refine ⟨?_, ?_, ?_⟩
  · cases h : s.activePlayer <;> simp [regenerateEnergy, addLog, h]
  · cases h : s.activePlayer <;> simp [regenerateEnergy, addLog, h]
  · intro c st hst h10
    simp only [regenBonus, List.foldl, regenBonusStep, hst, h10]
    norm_num

/-- C5 witness: a creature with energy attribute 10 regenerates exactly 6, and
the cap applies on a concrete state. -/
theorem regenerateEnergy_gain_witness :
    (regenerateEnergy sRegen).playerEnergy
        = min 15 (sRegen.playerEnergy + (4 + regenBonus sRegen.playerField))
    ∧ 4 + regenBonus [{ cEnergy3A with stats := some ⟨10, 5, 5, 5, 5⟩ }] = 6 := by
  exact ⟨(regenerateEnergy_gain sRegen).1,
         (regenerateEnergy_gain sRegen).2.2 { cEnergy3A with stats := some ⟨10, 5, 5, 5, 5⟩ } ⟨10, 5, 5, 5, 5⟩ rfl rfl⟩

/-! ## Win and loss evaluation (C3) -/

/-- A battle state in which both sides are fully eliminated. -/
def sBothEmpty : BattleState :=
  { gameState := .battle, turn := 3, activePlayer := .player,
    playerDeck := [], playerHand := [], playerField := [], playerEnergy := 5,
    playerTools := [], playerSpells := [],
    enemyDeck := [], enemyHand := [], enemyField := [], enemyEnergy := 5, battleLog := [] }

/-- C3 counterexample: in a battle state where BOTH sides are fully
eliminated, the loss condition holds but evaluation sets Victory (the win
check runs first), so phase = Defeat is not equivalent to the player side
being empty. -/
theorem winloss_both_empty_prefers_victory :
    checkLossCondition sBothEmpty = true
    ∧ (evaluateWinLoss sBothEmpty).gameState = GameState.victory
    ∧ (evaluateWinLoss sBothEmpty).gameState ≠ GameState.defeat := by
  refine ⟨rfl, rfl, by decide⟩

/-- C3 amended: after evaluation in battle, the phase is Victory exactly when
the enemy field, hand and deck are all empty, and Defeat exactly when the
player side is fully empty AND the enemy side is not (victory takes
precedence when both are empty). -/
theorem evaluateWinLoss_phase (s : BattleState) (h : s.gameState = .battle) :
    ((evaluateWinLoss s).gameState = GameState.victory ↔ checkWinCondition s = true)
    ∧ ((evaluateWinLoss s).gameState = GameState.defeat
        ↔ (checkLossCondition s = true ∧ checkWinCondition s = false)) := by
  by_cases hw : checkWinCondition s = true
  · simp [evaluateWinLoss, addLog, hw, h]
  · by_cases hl : checkLossCondition s = true
    · simp [evaluateWinLoss, addLog, hw, hl, h]
    · simp [evaluateWinLoss, addLog, hw, hl, h]

/-- C3 witness: evaluation on the both-sides-empty state yields Victory, in
agreement with the amended equivalence. -/
theorem evaluateWinLoss_phase_witness :
    ((evaluateWinLoss sBothEmpty).gameState = GameState.victory
      ↔ checkWinCondition sBothEmpty = true)
    ∧ ((evaluateWinLoss sBothEmpty).gameState = GameState.defeat
      ↔ (checkLossCondition sBothEmpty = true ∧ checkWinCondition sBothEmpty = false)) :=
  evaluateWinLoss_phase sBothEmpty rfl

/-! ## Stat-effect application discipline (C6) -/

/-- A magic-type spell with no special effect kind: its payload carries
nonzero statChanges and duration 2. -/
def buffSpell : Spell :=
  { id := 22, name := "Empower", spell_type := .magic, spell_effect := .other }

/-- C6 counterexample: casting a magic-type spell stores a nonzero statEffect
in the created active effect, but the target's battleStats are unchanged at
creation, and the tick never applies statEffect either - the deltas are
applied zero times, not exactly once at creation. -/
theorem spell_statEffect_never_applied :
    (applySpell cCaster cDefender buffSpell).updatedTarget.battleStats = cDefender.battleStats
    ∧ (applySpell cCaster cDefender buffSpell).updatedTarget.activeEffects
        = [{ name := "Empower", duration := 2,
             statEffect := some [(.magicalAttack, 7), (.magicalDefense, 3)], healthEffect := 0 }]
    ∧ (tickCreature (applySpell cCaster cDefender buffSpell).updatedTarget).battleStats
        = cDefender.battleStats := by
  refine ⟨by decide, by decide, by decide⟩

/-- A plain strength tool. -/
def strengthTool : Tool :=
  { id := 14, name := "Whetstone", tool_type := .strength, tool_effect := .other }

/-- C6 amended: the state-machine tick applies only health effects and
duration decrements and leaves every battleStats record unchanged; TOOL
statChanges are applied to battleStats exactly once, inside `applyTool` at
effect creation; the defend action applies its defense boost at creation; but
SPELL statChanges are never applied - `applySpell` leaves both creatures'
battleStats unchanged (the deltas are only stored in the effect, which the
tick ignores). -/
theorem statEffect_applied_at_creation (c caster target : Creature) (tool : Tool) (spell : Spell) :
    (tickCreature c).battleStats = c.battleStats
    ∧ (∀ te l, getToolEffect tool = Except.ok te → te.statChanges = some l →
        (applyTool c tool).map (fun r => r.updatedCreature.battleStats)
          = Except.ok (applyStatChanges c.battleStats l))
    ∧ (defendCreature c).battleStats
        = { c.battleStats with
            physicalDefense := (jsRound (c.battleStats.physicalDefense * (3/2)) : ℚ),
            magicalDefense := (jsRound (c.battleStats.magicalDefense * (3/2)) : ℚ) }
    ∧ (applySpell caster target spell).updatedTarget.battleStats = target.battleStats
    ∧ (applySpell caster target spell).updatedCaster.battleStats = caster.battleStats := by
  refine ⟨rfl, ?_, rfl, ?_, ?_⟩
  · intro te l hok hsc
    unfold applyTool
    rw [hok]
    simp only [hsc]
    split <;> split <;> rfl
  · cases hc : caster.stats with
    | none => simp [applySpell, hc]
    | some cst =>
      simp only [applySpell, hc]
      split <;> split <;> split <;> rfl
  · cases hc : caster.stats with
    | none => simp [applySpell, hc]
    | some cst => simp [applySpell, hc]

/-- C6 witness: on a concrete creature, the tick leaves battleStats unchanged
and a strength tool's +5 physicalAttack delta is applied at creation. -/
theorem statEffect_applied_at_creation_witness :
    (tickCreature cDefender).battleStats = cDefender.battleStats
    ∧ (applyTool cDefender strengthTool).map (fun r => r.updatedCreature.battleStats)
        = Except.ok (applyStatChanges cDefender.battleStats [(StatKey.physicalAttack, 5)]) := by
  refine ⟨(statEffect_applied_at_creation cDefender cDefender cDefender strengthTool buffSpell).1, ?_⟩
  exact (statEffect_applied_at_creation cDefender cDefender cDefender strengthTool buffSpell).2.1
    (toolBaseEffect .strength) [(StatKey.physicalAttack, 5)] rfl rfl

/-! ## Turn-boundary phase order (C4) -/

/-- A mid-battle state: both sides have a field creature and a deck card. -/
def sMid : BattleState :=
  { gameState := .battle, turn := 2, activePlayer := .enemy,
    playerDeck := [cAttacker], playerHand := [], playerField := [cTie], playerEnergy := 5,
    playerTools := [], playerSpells := [],
    enemyDeck := [cDefender], enemyHand := [], enemyField := [cEnergy3A], enemyEnergy := 5,
    battleLog := [] }

/-- C4 counterexample: at a concrete non-terminal state, the turn-boundary
step switches the active side BEFORE drawing cards and regenerating energy
(trace index of the side switch is smaller), contradicting the claimed order
tick, then draw, then regenerate, then switch. -/
theorem turn_boundary_switch_before_draw :
    (finishEnemyTurn .easy sMid).2
      = [.winLossCheck, .effectTick, .incrementTurnStep, .switchSide,
         .drawPlayer, .drawEnemy, .regenerateEnergyStep]
    ∧ List.indexOf PhaseStep.switchSide (finishEnemyTurn .easy sMid).2
        < List.indexOf PhaseStep.drawPlayer (finishEnemyTurn .easy sMid).2
    ∧ List.indexOf PhaseStep.switchSide (finishEnemyTurn .easy sMid).2
        < List.indexOf PhaseStep.regenerateEnergyStep (finishEnemyTurn .easy sMid).2 := by
  refine ⟨by decide, by decide, by decide⟩

/-- C4 amended: a turn boundary performs, in source order: win/loss check,
effect tick, turn increment, switch of the active side, then the optional
card draws, then energy regeneration - so the side switch precedes draw and
regeneration, and the win/loss evaluation comes first, inside the same locked
step (no other intent is processed in between). -/
theorem turn_boundary_order (d : Difficulty) (s : BattleState)
    (hw : checkWinCondition s = false) (hl : checkLossCondition s = false) :
    (finishEnemyTurn d s).2
      = [PhaseStep.winLossCheck, PhaseStep.effectTick, PhaseStep.incrementTurnStep, PhaseStep.switchSide]
        ++ (drawPhasePlayer { { applyOngoingEffects s with
              turn := (applyOngoingEffects s).turn + 1 } with activePlayer := .player }).2
        ++ (drawPhaseEnemy d (drawPhasePlayer { { applyOngoingEffects s with
              turn := (applyOngoingEffects s).turn + 1 } with activePlayer := .player }).1).2
        ++ [PhaseStep.regenerateEnergyStep]
    ∧ (∀ s', (drawPhasePlayer s').2 = [] ∨ (drawPhasePlayer s').2 = [PhaseStep.drawPlayer])
    ∧ (∀ s', (drawPhaseEnemy d s').2 = [] ∨ (drawPhaseEnemy d s').2 = [PhaseStep.drawEnemy]) := by
  refine ⟨?_, ?_, ?_⟩
  · unfold finishEnemyTurn
    rw [hw, hl]
    simp
  · intro s'
    unfold drawPhasePlayer
    cases s'.playerDeck with
    | nil => exact Or.inl rfl
    | cons a t =>
      dsimp only
      by_cases h : s'.playerHand.length < 5
      · rw [if_pos h]
        exact Or.inr rfl
      · rw [if_neg h]
        exact Or.inl rfl
  · intro s'
    unfold drawPhaseEnemy
    by_cases h : s'.enemyHand.length < (getDifficultySettings d).initialHandSize ∧ s'.enemyDeck ≠ []
    · rw [if_pos h]
      exact Or.inr rfl
    · rw [if_neg h]
      exact Or.inl rfl

/-- C4 witness: the amended order instantiated at the concrete mid-battle
state. -/
theorem turn_boundary_order_witness :
    (finishEnemyTurn .easy sMid).2
      = [PhaseStep.winLossCheck, PhaseStep.effectTick, PhaseStep.incrementTurnStep, PhaseStep.switchSide]
        ++ (drawPhasePlayer { { applyOngoingEffects sMid with
              turn := (applyOngoingEffects sMid).turn + 1 } with activePlayer := .player }).2
        ++ (drawPhaseEnemy .easy (drawPhasePlayer { { applyOngoingEffects sMid with
              turn := (applyOngoingEffects sMid).turn + 1 } with activePlayer := .player }).1).2
        ++ [PhaseStep.regenerateEnergyStep] :=
  (turn_boundary_order .easy sMid rfl rfl).1

/-! ## Health and energy invariants (C2, C10) -/

/-- Well-formed base stats: all five attributes are nonnegative. -/
def StatsOk : Option BaseStats → Prop
  | none => True
  | some st => 0 ≤ st.energy ∧ 0 ≤ st.strength ∧ 0 ≤ st.magic ∧ 0 ≤ st.stamina ∧ 0 ≤ st.speed

/-- A well-formed creature in play: health within [0, maxHealth] and
nonnegative base stats. -/
def CreatureOk (c : Creature) : Prop :=
  0 ≤ c.currentHealth ∧ c.currentHealth ≤ c.battleStats.maxHealth ∧ StatsOk c.stats

/-- A creature still in a hand or deck additionally has a nonnegative energy
cost (as produced by stat derivation, which yields cost at least 1, or by
enemy generation, which assigns 3 to 9). -/
def HandCreatureOk (c : Creature) : Prop :=
  CreatureOk c ∧ 0 ≤ c.battleStats.energyCost

/-- The claimed state invariant: every creature on either field (and in the
hands and decks, from which field creatures are taken) is within its health
bounds, and both energies lie in [0, 15]. -/
def Inv (s : BattleState) : Prop :=
  (∀ c ∈ s.playerHand, HandCreatureOk c) ∧ (∀ c ∈ s.playerDeck, HandCreatureOk c)
  ∧ (∀ c ∈ s.enemyHand, HandCreatureOk c) ∧ (∀ c ∈ s.enemyDeck, HandCreatureOk c)
  ∧ (∀ c ∈ s.playerField, CreatureOk c) ∧ (∀ c ∈ s.enemyField, CreatureOk c)
  ∧ 0 ≤ s.playerEnergy ∧ s.playerEnergy ≤ 15 ∧ 0 ≤ s.enemyEnergy ∧ s.enemyEnergy ≤ 15

/-- An intent's creature arguments are well formed (in the game they are
members of the hands and fields, so this holds of every intent the UI or the
AI can produce). -/
def ActionOk : BattleAction → Prop
  | .deploy c => HandCreatureOk c
  | .enemyDeploy c => HandCreatureOk c
  | .attack a d _ => CreatureOk a ∧ CreatureOk d
  | .useTool _ t => CreatureOk t
  | .useSpell _ caster target => CreatureOk caster ∧ ∀ t, target = some t → CreatureOk t
  | .defend c => CreatureOk c
  | _ => True

/-- Membership transfer through `List.map`. -/
theorem forall_mem_map {α : Type} {P : α → Prop} {f : α → α} {l : List α}
    (hl : ∀ c ∈ l, P (f c)) : ∀ c ∈ l.map f, P c := by
  intro c hc
  rw [List.mem_map] at hc
  obtain ⟨a, ha, rfl⟩ := hc
  exact hl a ha

/-- Membership transfer through `List.filter`. -/
theorem forall_mem_filter {α : Type} {P : α → Prop} {p : α → Bool} {l : List α}
    (hl : ∀ c ∈ l, P c) : ∀ c ∈ l.filter p, P c := by
  intro c hc
  exact hl c (List.mem_of_mem_filter hc)

/-- Damage computed by `calculateDamage` is never negative. -/
theorem calculateDamage_damage_nonneg (attacker defender : Creature) (ty : AttackType) (r : Rolls) :
    0 ≤ (calculateDamage attacker defender ty r).damage := by
  by_cases hd : r.dodgeRoll ≤ jsOr defender.battleStats.dodgeChance 3
  · rw [calculateDamage_dodged attacker defender ty r hd]
  · rw [calculateDamage_not_dodged attacker defender ty r hd]
    have := le_max_left (1 : ℤ) (jsRound
      (attackValueOf attacker ty
        * getEffectivenessMultiplier ty attacker.stats defender.stats
        * r.variance
        * (if decide (r.criticalRoll ≤ jsOr attacker.battleStats.criticalChance 5) then 3/2 else 1)
        - defenseValueOf defender ty))
    dsimp only
    omega

/-- Subtracting a nonnegative damage, clamped at 0, keeps health in bounds. -/
theorem health_sub_bounds {h M d : ℚ} (h0 : 0 ≤ h) (hM : h ≤ M) (hd : 0 ≤ d) :
    0 ≤ max 0 (h - d) ∧ max 0 (h - d) ≤ M := by
  constructor
  · exact le_max_left 0 (h - d)
  · have : h - d ≤ M := by linarith
    exact max_le (by linarith) this

/-- Adding a nonnegative healing, clamped at maxHealth, keeps health in
bounds. -/
theorem health_add_bounds {h M x : ℚ} (h0 : 0 ≤ h) (hM : h ≤ M) (hx : 0 ≤ x) :
    0 ≤ min (h + x) M ∧ min (h + x) M ≤ M := by
  constructor
  · exact le_min (by linarith) (by linarith)
  · exact min_le_right _ _

/-- `jsOr` of two nonnegative values is nonnegative. -/
theorem jsOr_nonneg {x d : ℚ} (hx : 0 ≤ x) (hd : 0 ≤ d) : 0 ≤ jsOr x d := by
  unfold jsOr
  split <;> assumption

/-- The per-effect health fold of the tick keeps health within bounds. -/
theorem tickHealth_bounds (M : ℚ) (effects : List Effect) :
    ∀ h : ℚ, 0 ≤ h → h ≤ M → 0 ≤ tickHealth M h effects ∧ tickHealth M h effects ≤ M := by
  induction effects with
  | nil => exact fun h h0 hM => ⟨h0, hM⟩
  | cons e t ih =>
    intro h h0 hM
    have hM0 : 0 ≤ M := le_trans h0 hM
    have step : tickHealth M h (e :: t)
        = tickHealth M (if e.healthEffect ≠ 0 then min M (max 0 (h + e.healthEffect)) else h) t := rfl
    rw [step]
    by_cases he : e.healthEffect ≠ 0
    · rw [if_pos he]
      exact ih _ (le_min hM0 (le_max_left 0 _)) (min_le_left _ _)
    · rw [if_neg he]
      exact ih h h0 hM

/-- The tick preserves creature well-formedness (battleStats and base stats
are untouched, health is clamped). -/
theorem tickCreature_ok {c : Creature} (hc : CreatureOk c) : CreatureOk (tickCreature c) := by
  obtain ⟨h0, hM, hs⟩ := hc
  obtain ⟨t0, tM⟩ := tickHealth_bounds c.battleStats.maxHealth c.activeEffects c.currentHealth h0 hM
  exact ⟨t0, tM, hs⟩

/-- Writing a non-maxHealth stat leaves maxHealth unchanged. -/
theorem setStat_maxHealth {bs : BattleStats} {k : StatKey} {v : ℚ} (hk : k ≠ StatKey.maxHealth) :
    (setStat bs k v).maxHealth = bs.maxHealth := by
  cases k <;> first | rfl | exact absurd rfl hk

/-- A stat-delta map that does not address maxHealth leaves it unchanged. -/
theorem applyStatChanges_maxHealth {l : List (StatKey × ℚ)} :
    ∀ bs : BattleStats, (∀ p ∈ l, p.1 ≠ StatKey.maxHealth) →
      (applyStatChanges bs l).maxHealth = bs.maxHealth := by
  induction l with
  | nil => exact fun bs _ => rfl
  | cons p t ih =>
    intro bs hl
    have step : applyStatChanges bs (p :: t)
        = applyStatChanges (setStat bs p.1 (getStat bs p.1 + p.2)) t := rfl
    rw [step, ih _ (fun q hq => hl q (List.mem_cons_of_mem p hq)),
      setStat_maxHealth (hl p (List.mem_cons_self p t))]

/-- Every payload `getToolEffect` successfully returns has a nonnegative
healthChange and never addresses maxHealth in its stat changes. -/
theorem getToolEffect_payload_ok (tool : Tool) (te : ToolEffect)
    (h : getToolEffect tool = Except.ok te) :
    (∀ l, te.statChanges = some l → ∀ p ∈ l, p.1 ≠ StatKey.maxHealth)
    ∧ 0 ≤ te.healthChange := by
  obtain ⟨i, n, ty, ef⟩ := tool
  cases ty <;> cases ef <;> simp only [getToolEffect, toolBaseEffect] at h
  all_goals try exact Except.noConfusion h
  all_goals
    (try injection h with h)
    subst h
    refine ⟨fun l hl => ?_, by norm_num⟩
    dsimp only at hl
    first
    | exact Option.noConfusion hl
    | (rw [Option.some.injEq] at hl
       subst hl
       decide)

/-- Every payload `getSpellEffect` returns for a nonnegative caster magic has
nonnegative damage and healing, and never addresses maxHealth in its stat
changes. -/
theorem getSpellEffect_payload_ok (spell : Spell) (m : ℚ) (hm : 0 ≤ m) :
    0 ≤ (getSpellEffect spell m).damage
    ∧ 0 ≤ (getSpellEffect spell m).healing
    ∧ (∀ l, (getSpellEffect spell m).statChanges = some l → ∀ p ∈ l, p.1 ≠ StatKey.maxHealth) := by
  have hmp : 0 ≤ 1 + m * (1/10) := by linarith
  obtain ⟨i, n, ty, ef⟩ := spell
  refine ⟨?_, ?_, ?_⟩
  · cases ty <;> cases ef <;> dsimp only [getSpellEffect, spellBaseEffect] <;>
      (try norm_num) <;> linarith [hmp]
  · cases ty <;> cases ef <;> dsimp only [getSpellEffect, spellBaseEffect] <;>
      (try norm_num) <;> linarith [hmp]
  · intro l hl
    cases ty <;> cases ef <;> dsimp only [getSpellEffect, spellBaseEffect] at hl <;>
      first
      | exact Option.noConfusion hl
      | (rw [Option.some.injEq] at hl
         subst hl
         decide)

/-- The invariant only looks at the hands, decks, fields and energies. -/
theorem inv_of_projections {s t : BattleState}
    (h1 : t.playerHand = s.playerHand) (h2 : t.playerDeck = s.playerDeck)
    (h3 : t.enemyHand = s.enemyHand) (h4 : t.enemyDeck = s.enemyDeck)
    (h5 : t.playerField = s.playerField) (h6 : t.enemyField = s.enemyField)
    (h7 : t.playerEnergy = s.playerEnergy) (h8 : t.enemyEnergy = s.enemyEnergy)
    (hs : Inv s) : Inv t := by
  unfold Inv at hs ⊢
  rw [h1, h2, h3, h4, h5, h6, h7, h8]
  exact hs

/-- Appending a log entry does not affect the invariant. -/
theorem inv_addLog {s : BattleState} {m : String} : Inv (addLog s m) ↔ Inv s :=
  Iff.rfl

/-- The deploy callback preserves the invariant. -/
theorem inv_deployCreature {s : BattleState} {c : Creature}
    (hs : Inv s) (hc : HandCreatureOk c) : Inv (deployCreature s c) := by
  obtain ⟨hph, hpd, heh, hed, hpf, hef, he1, he2, he3, he4⟩ := hs
  unfold deployCreature
  by_cases hfull : s.playerField.length ≥ 3
  · rw [if_pos hfull, inv_addLog]
    exact ⟨hph, hpd, heh, hed, hpf, hef, he1, he2, he3, he4⟩
  · rw [if_neg hfull]
    dsimp only
    by_cases hen : s.playerEnergy < jsOr c.battleStats.energyCost 3
    · rw [if_pos hen, inv_addLog]
      exact ⟨hph, hpd, heh, hed, hpf, hef, he1, he2, he3, he4⟩
    · rw [if_neg hen, inv_addLog]
      have hcost : 0 ≤ jsOr c.battleStats.energyCost 3 := jsOr_nonneg hc.2 (by norm_num)
      have hle := not_lt.mp hen
      refine ⟨forall_mem_filter hph, hpd, heh, hed, ?_, hef,
        by dsimp only; linarith, by dsimp only; linarith, he3, he4⟩
      intro x hx
      rcases List.mem_append.mp hx with h | h
      · exact hpf x h
      · rw [List.mem_singleton] at h
        rw [h]
        exact hc.1

/-- The enemy deploy path preserves the invariant. -/
theorem inv_enemyDeployCreature {s : BattleState} {c : Creature}
    (hs : Inv s) (hc : HandCreatureOk c) : Inv (enemyDeployCreature s c) := by
  obtain ⟨hph, hpd, heh, hed, hpf, hef, he1, he2, he3, he4⟩ := hs
  unfold enemyDeployCreature
  dsimp only
  by_cases hen : s.enemyEnergy < jsOr c.battleStats.energyCost 3
  · rw [if_pos hen, inv_addLog]
    exact ⟨hph, hpd, heh, hed, hpf, hef, he1, he2, he3, he4⟩
  · rw [if_neg hen, inv_addLog]
    have hcost : 0 ≤ jsOr c.battleStats.energyCost 3 := jsOr_nonneg hc.2 (by norm_num)
    have hle := not_lt.mp hen
    refine ⟨hph, hpd, forall_mem_filter heh, hed, hpf, ?_, he1, he2,
      by dsimp only; linarith, by dsimp only; linarith⟩
    intro x hx
    rcases List.mem_append.mp hx with h | h
    · exact hef x h
    · rw [List.mem_singleton] at h
      rw [h]
      exact hc.1

/-- `processAttack` keeps both creatures well formed. -/
theorem processAttack_ok {a d : Creature} (ha : CreatureOk a) (hd : CreatureOk d)
    (ty : AttackTypeArg) (r : Rolls) :
    CreatureOk (processAttack a d ty r).updatedAttacker
    ∧ CreatureOk (processAttack a d ty r).updatedDefender := by
  refine ⟨ha, ?_⟩
  unfold processAttack
  dsimp only
  split
  · exact hd
  · obtain ⟨h0, hM, hsb⟩ := hd
    have hdmg : (0:ℚ) ≤ ((calculateDamage a d (processAttackType a ty) r).damage : ℚ) := by
      exact_mod_cast calculateDamage_damage_nonneg a d (processAttackType a ty) r
    obtain ⟨x0, xM⟩ := health_sub_bounds h0 hM hdmg
    exact ⟨x0, xM, hsb⟩

/-- The attack callback preserves the invariant. -/
theorem inv_attackCreature {s : BattleState} {a d : Creature}
    (hs : Inv s) (ha : CreatureOk a) (hd : CreatureOk d) (r : Rolls) :
    Inv (attackCreature s a d r) := by
  obtain ⟨hph, hpd, heh, hed, hpf, hef, he1, he2, he3, he4⟩ := hs
  obtain ⟨hA, hD⟩ := processAttack_ok ha hd (.explicitType (attackCreatureAttackType a)) r
  unfold attackCreature
  dsimp only
  rw [inv_addLog]
  refine ⟨hph, hpd, heh, hed, ?_, ?_, he1, he2, he3, he4⟩
  · apply forall_mem_map
    intro x hx
    split
    · exact hA
    · split
      · exact hD
      · exact hpf x hx
  · apply forall_mem_map
    intro x hx
    split
    · exact hA
    · split
      · exact hD
      · exact hef x hx

/-- `applyTool` keeps the creature well formed: stat changes never touch
maxHealth, and the direct healing is nonnegative and clamped. -/
theorem applyTool_ok {c : Creature} (hc : CreatureOk c) (tool : Tool) :
    ∀ res, applyTool c tool = Except.ok res → CreatureOk res.updatedCreature := by
  intro res hres
  unfold applyTool at hres
  cases hok : getToolEffect tool with
  | error e =>
    rw [hok] at hres
    exact Except.noConfusion hres
  | ok te =>
    rw [hok] at hres
    dsimp only at hres
    obtain ⟨hnomax, hhc⟩ := getToolEffect_payload_ok tool te hok
    injection hres with hres
    subst hres
    obtain ⟨h0, hM, hsb⟩ := hc
    -- the creature after the stat-change step
    have hc1 : ∀ c1, (match te.statChanges with
          | some l => { c with battleStats := applyStatChanges c.battleStats l }
          | none => c) = c1 →
        c1.battleStats.maxHealth = c.battleStats.maxHealth
        ∧ c1.currentHealth = c.currentHealth ∧ c1.stats = c.stats := by
      intro c1 h1
      cases hsc : te.statChanges with
      | none =>
        rw [hsc] at h1
        rw [← h1]
        exact ⟨rfl, rfl, rfl⟩
      | some l =>
        rw [hsc] at h1
        rw [← h1]
        exact ⟨applyStatChanges_maxHealth c.battleStats (hnomax l hsc), rfl, rfl⟩
    obtain ⟨hm1, hh1, hs1⟩ := hc1 _ rfl
    dsimp only
    split
    · -- healing branch: clamped into bounds
      next hheal =>
      constructor
      · split
        all_goals
          try dsimp only
          rw [hm1, hh1]
          exact (health_add_bounds h0 hM (le_of_lt hheal.2)).1
      · constructor
        · split
          all_goals
            try dsimp only
            rw [hm1, hh1]
            exact (health_add_bounds h0 hM (le_of_lt hheal.2)).2
        · split
          all_goals
            try dsimp only
            rw [hs1]
            exact hsb
    · -- no healing: health and maxHealth unchanged from the stat step
      constructor
      · split
        all_goals
          try dsimp only
          rw [hh1]
          exact h0
      · constructor
        · split
          all_goals
            try dsimp only
            rw [hh1, hm1]
            exact hM
        · split
          all_goals
            try dsimp only
            rw [hs1]
            exact hsb

/-- The useTool callback preserves the invariant (a TypeError leaves the
state unchanged). -/
theorem inv_useTool {s : BattleState} {tool : Tool} {target : Creature}
    (hs : Inv s) (ht : CreatureOk target) : Inv (useTool s tool target) := by
  obtain ⟨hph, hpd, heh, hed, hpf, hef, he1, he2, he3, he4⟩ := hs
  unfold useTool
  cases hres : applyTool target tool with
  | error e => exact ⟨hph, hpd, heh, hed, hpf, hef, he1, he2, he3, he4⟩
  | ok result =>
    have hrok := applyTool_ok ht tool result hres
    dsimp only
    rw [inv_addLog]
    refine ⟨hph, hpd, heh, hed, ?_, ?_, he1, he2, he3, he4⟩
    · dsimp only
      split
      · apply forall_mem_map
        intro x hx
        split
        · exact hrok
        · exact hpf x hx
      · exact hpf
    · dsimp only
      split
      · apply forall_mem_map
        intro x hx
        split
        · exact hrok
        · exact hef x hx
      · exact hef

/-- `applySpell` keeps both creatures well formed: damage is clamped at 0,
healing at maxHealth, and battle stats are untouched. -/
theorem applySpell_ok {caster target : Creature} (hcaster : CreatureOk caster)
    (htarget : CreatureOk target) (spell : Spell) :
    CreatureOk (applySpell caster target spell).updatedCaster
    ∧ CreatureOk (applySpell caster target spell).updatedTarget := by
  unfold applySpell
  cases hst : caster.stats with
  | none => exact ⟨hcaster, htarget⟩
  | some cst =>
    dsimp only
    refine ⟨hcaster, ?_⟩
    have hm : 0 ≤ cst.magic := by
      have h2 : StatsOk (some cst) := hst ▸ hcaster.2.2
      exact h2.2.2.1
    obtain ⟨hdmg, hheal, _⟩ := getSpellEffect_payload_ok spell cst.magic hm
    have ht1 : CreatureOk (if (getSpellEffect spell cst.magic).damage ≠ 0 then
        { target with currentHealth := max 0 (target.currentHealth - (getSpellEffect spell cst.magic).damage) }
      else target) := by
      split
      · obtain ⟨x0, xM⟩ := health_sub_bounds htarget.1 htarget.2.1 hdmg
        exact ⟨x0, xM, htarget.2.2⟩
      · exact htarget
    generalize hg1 : (if (getSpellEffect spell cst.magic).damage ≠ 0 then
        { target with currentHealth := max 0 (target.currentHealth - (getSpellEffect spell cst.magic).damage) }
      else target) = t1 at ht1 ⊢
    have ht2 : CreatureOk (if (getSpellEffect spell cst.magic).healing ≠ 0 then
        { t1 with currentHealth := min (t1.currentHealth + (getSpellEffect spell cst.magic).healing) t1.battleStats.maxHealth }
      else t1) := by
      split
      · obtain ⟨x0, xM⟩ := health_add_bounds ht1.1 ht1.2.1 hheal
        exact ⟨x0, xM, ht1.2.2⟩
      · exact ht1
    generalize hg2 : (if (getSpellEffect spell cst.magic).healing ≠ 0 then
        { t1 with currentHealth := min (t1.currentHealth + (getSpellEffect spell cst.magic).healing) t1.battleStats.maxHealth }
      else t1) = t2 at ht2 ⊢
    split
    · exact ⟨ht2.1, ht2.2.1, ht2.2.2⟩
    · exact ht2

/-- The useSpell callback preserves the invariant. -/
theorem inv_useSpell {s : BattleState} {spell : Spell} {caster : Creature} {target : Option Creature}
    (hs : Inv s) (hcaster : CreatureOk caster)
    (htarget : ∀ t, target = some t → CreatureOk t) : Inv (useSpell s spell caster target) := by
  obtain ⟨hph, hpd, heh, hed, hpf, hef, he1, he2, he3, he4⟩ := hs
  unfold useSpell
  dsimp only
  by_cases hen : s.playerEnergy < 4
  · rw [if_pos hen, inv_addLog]
    exact ⟨hph, hpd, heh, hed, hpf, hef, he1, he2, he3, he4⟩
  · rw [if_neg hen, inv_addLog]
    have htok : CreatureOk (target.getD caster) := by
      cases htg : target with
      | none => exact hcaster
      | some t => exact htarget t htg
    obtain ⟨hcok, htok2⟩ := applySpell_ok hcaster htok spell
    have hle := not_lt.mp hen
    refine ⟨hph, hpd, heh, hed, ?_, ?_, by dsimp only; linarith, by dsimp only; linarith, he3, he4⟩
    · apply forall_mem_map
      intro x hx
      split
      · exact hcok
      · split
        · exact htok2
        · exact hpf x hx
    · apply forall_mem_map
      intro x hx
      split
      · exact hcok
      · split
        · exact htok2
        · exact hef x hx

/-- `defendCreature` keeps the creature well formed: only the defenses and
the effect list change. -/
theorem defendCreature_ok {c : Creature} (hc : CreatureOk c) : CreatureOk (defendCreature c) :=
  ⟨hc.1, hc.2.1, hc.2.2⟩

/-- The defend callback preserves the invariant. -/
theorem inv_defendCreatureAction {s : BattleState} {c : Creature}
    (hs : Inv s) (hc : CreatureOk c) : Inv (defendCreatureAction s c) := by
  obtain ⟨hph, hpd, heh, hed, hpf, hef, he1, he2, he3, he4⟩ := hs
  have hdok := defendCreature_ok hc
  unfold defendCreatureAction
  dsimp only
  rw [inv_addLog]
  refine ⟨hph, hpd, heh, hed, ?_, ?_, he1, he2, he3, he4⟩
  · dsimp only
    split
    · apply forall_mem_map
      intro x hx
      split
      · exact hdok
      · exact hpf x hx
    · exact hpf
  · dsimp only
    split
    · apply forall_mem_map
      intro x hx
      split
      · exact hdok
      · exact hef x hx
    · exact hef

/-- Drawing a card preserves the invariant (it moves the top deck creature to
the hand). -/
theorem inv_drawCard {s : BattleState} (hs : Inv s) (side : Side) : Inv (drawCard s side) := by
  obtain ⟨hph, hpd, heh, hed, hpf, hef, he1, he2, he3, he4⟩ := hs
  cases side with
  | player =>
    unfold drawCard
    cases hdk : s.playerDeck with
    | nil => exact ⟨hph, hpd, heh, hed, hpf, hef, he1, he2, he3, he4⟩
    | cons d rest =>
      refine ⟨?_, ?_, heh, hed, hpf, hef, he1, he2, he3, he4⟩
      · intro x hx
        rcases List.mem_append.mp hx with h | h
        · exact hph x h
        · rw [List.mem_singleton] at h
          rw [h]
          exact hpd d (by rw [hdk]; exact List.mem_cons_self d rest)
      · intro x hx
        exact hpd x (by rw [hdk]; exact List.mem_cons_of_mem d hx)
  | enemy =>
    unfold drawCard
    cases hdk : s.enemyDeck with
    | nil => exact ⟨hph, hpd, heh, hed, hpf, hef, he1, he2, he3, he4⟩
    | cons d rest =>
      refine ⟨hph, hpd, ?_, ?_, hpf, hef, he1, he2, he3, he4⟩
      · intro x hx
        rcases List.mem_append.mp hx with h | h
        · exact heh x h
        · rw [List.mem_singleton] at h
          rw [h]
          exact hed d (by rw [hdk]; exact List.mem_cons_self d rest)
      · intro x hx
        exact hed x (by rw [hdk]; exact List.mem_cons_of_mem d hx)

/-- The per-side regeneration bonus is nonnegative for well-formed fields. -/
theorem regenBonus_nonneg {field : List Creature} (h : ∀ c ∈ field, CreatureOk c) :
    0 ≤ regenBonus field := by
  have main : ∀ l : List Creature, (∀ c ∈ l, CreatureOk c) →
      ∀ acc : ℚ, 0 ≤ acc → 0 ≤ l.foldl regenBonusStep acc := by
    intro l
    induction l with
    | nil => exact fun _ acc hacc => hacc
    | cons x t ih =>
      intro hl acc hacc
      have hx := hl x (List.mem_cons_self x t)
      have hstep : 0 ≤ regenBonusStep acc x := by
        unfold regenBonusStep
        cases hst : x.stats with
        | none => exact hacc
        | some st =>
          dsimp only
          split
          · have he : 0 ≤ st.energy := by
              have h2 : StatsOk (some st) := hst ▸ hx.2.2
              exact h2.1
            have hf : (0:ℤ) ≤ ⌊st.energy * (1/5)⌋ :=
              Int.le_floor.mpr (by push_cast; exact mul_nonneg he (by norm_num))
            have hf2 : (0:ℚ) ≤ ((⌊st.energy * (1/5)⌋ : ℤ) : ℚ) := by exact_mod_cast hf
            linarith
          · exact hacc
      exact ih (fun c hc => hl c (List.mem_cons_of_mem x hc)) _ hstep
  exact main field h 0 le_rfl

/-- The regeneration step preserves the invariant: both energies stay in
[0, 15]. -/
theorem inv_regenerateEnergy {s : BattleState} (hs : Inv s) : Inv (regenerateEnergy s) := by
  obtain ⟨hph, hpd, heh, hed, hpf, hef, he1, he2, he3, he4⟩ := hs
  have hb1 := regenBonus_nonneg hpf
  have hb2 := regenBonus_nonneg hef
  have key : Inv { s with
      playerEnergy := min 15 (s.playerEnergy + (4 + regenBonus s.playerField)),
      enemyEnergy := min 15 (s.enemyEnergy + (4 + regenBonus s.enemyField)) } := by
    refine ⟨hph, hpd, heh, hed, hpf, hef, ?_, ?_, ?_, ?_⟩
    · exact le_min (by norm_num) (by linarith)
    · exact min_le_left _ _
    · exact le_min (by norm_num) (by linarith)
    · exact min_le_left _ _
  unfold regenerateEnergy
  dsimp only
  cases hap : s.activePlayer <;> simp only [hap] <;> rw [inv_addLog] <;> exact key

/-- The effect tick preserves the invariant. -/
theorem inv_applyOngoingEffects {s : BattleState} (hs : Inv s) : Inv (applyOngoingEffects s) := by
  obtain ⟨hph, hpd, heh, hed, hpf, hef, he1, he2, he3, he4⟩ := hs
  have hinv2 : Inv { s with
      playerField := (s.playerField.map tickCreature).filter (fun c => c.currentHealth > 0),
      enemyField := (s.enemyField.map tickCreature).filter (fun c => c.currentHealth > 0) } := by
    refine ⟨hph, hpd, heh, hed, ?_, ?_, he1, he2, he3, he4⟩
    · exact forall_mem_filter (forall_mem_map (fun c hc => tickCreature_ok (hpf c hc)))
    · exact forall_mem_filter (forall_mem_map (fun c hc => tickCreature_ok (hef c hc)))
  unfold applyOngoingEffects
  dsimp only
  refine inv_of_projections ?_ ?_ ?_ ?_ ?_ ?_ ?_ ?_ hinv2
  all_goals first
    | rfl
    | (show _ = _
       split <;> split <;> rfl)

/-- C2: every state transition of the battle state machine preserves the
invariant 0 ≤ currentHealth ≤ maxHealth for the creatures on both fields (and
in the hands and decks) and 0 ≤ energy ≤ 15 for both sides; in particular a
negative per-tick healthEffect is clamped at 0 and regeneration is capped at
15.  (Creatures are assumed well formed on entry, as produced by stat
derivation / enemy generation, and intents refer to in-play creatures.) -/
theorem battle_invariant_preserved (s : BattleState) (a : BattleAction)
    (hs : Inv s) (ha : ActionOk a) : Inv (applyAction s a) := by
  cases a with
  | deploy c => exact inv_deployCreature hs ha
  | enemyDeploy c => exact inv_enemyDeployCreature hs ha
  | attack x y r => exact inv_attackCreature hs ha.1 ha.2 r
  | useTool tool t => exact inv_useTool hs ha
  | useSpell sp cs t => exact inv_useSpell hs ha.1 ha.2
  | defend c => exact inv_defendCreatureAction hs ha
  | draw side => exact inv_drawCard hs side
  | regenerate => exact inv_regenerateEnergy hs
  | tick => exact inv_applyOngoingEffects hs
  | setActive side => exact hs
  | incrementTurn => exact hs
  | setGame g => exact hs
  | logMessage m => exact inv_addLog.mpr hs

/-- C2 witness: the invariant holds after a concrete attack on the concrete
mid-battle state. -/
theorem battle_invariant_preserved_witness :
    Inv (applyAction sMid (.attack cTie cEnergy3A rollsPlain)) := by
  apply battle_invariant_preserved
  · refine ⟨?_, ?_, ?_, ?_, ?_, ?_, ?_, ?_, ?_, ?_⟩ <;>
      norm_num [sMid, cAttacker, cTie, cDefender, cEnergy3A,
        HandCreatureOk, CreatureOk, StatsOk]
  · refine ⟨?_, ?_⟩ <;>
      norm_num [cTie, cEnergy3A, CreatureOk, StatsOk]

/-- C10: a player deploy intent is rejected, with only a log entry appended,
whenever the player field already holds 3 creatures - the check is a
hard-coded 3, independent of the difficulty, whose maxFieldSize can be 4, 5
or 6; consequently no state transition ever grows the player field beyond
3. -/
theorem player_field_never_exceeds_three (s : BattleState) (c : Creature) (a : BattleAction) :
    (s.playerField.length ≥ 3 →
      deployCreature s c = addLog s "Your battlefield is full! Cannot deploy more creatures.")
    ∧ (s.playerField.length ≤ 3 → (applyAction s a).playerField.length ≤ 3)
    ∧ (getDifficultySettings .medium).maxFieldSize = 4
    ∧ (getDifficultySettings .hard).maxFieldSize = 5
    ∧ (getDifficultySettings .expert).maxFieldSize = 6 := by
  refine ⟨?_, ?_, rfl, rfl, rfl⟩
  · intro hfull
    unfold deployCreature
    rw [if_pos hfull]
  · intro hlen
    cases a with
    | deploy c' =>
      show (deployCreature s c').playerField.length ≤ 3
      unfold deployCreature
      by_cases hfull : s.playerField.length ≥ 3
      · rw [if_pos hfull]
        exact hlen
      · rw [if_neg hfull]
        dsimp only
        by_cases hen : s.playerEnergy < jsOr c'.battleStats.energyCost 3
        · rw [if_pos hen]
          exact hlen
        · rw [if_neg hen]
          show (s.playerField ++ [c']).length ≤ 3
          rw [List.length_append, List.length_singleton]
          omega
    | enemyDeploy c' =>
      show (enemyDeployCreature s c').playerField.length ≤ 3
      unfold enemyDeployCreature
      dsimp only
      split
      · exact hlen
      · exact hlen
    | attack x y r =>
      show (attackCreature s x y r).playerField.length ≤ 3
      unfold attackCreature
      dsimp only
      show (s.playerField.map _).length ≤ 3
      rw [List.length_map]
      exact hlen
    | useTool tool t =>
      show (useTool s tool t).playerField.length ≤ 3
      unfold useTool
      cases applyTool t tool with
      | error e => exact hlen
      | ok result =>
        dsimp only
        split
        · show (s.playerField.map _).length ≤ 3
          rw [List.length_map]
          exact hlen
        · exact hlen
    | useSpell sp cs t =>
      show (useSpell s sp cs t).playerField.length ≤ 3
      unfold useSpell
      dsimp only
      split
      · exact hlen
      · show (s.playerField.map _).length ≤ 3
        rw [List.length_map]
        exact hlen
    | defend c' =>
      show (defendCreatureAction s c').playerField.length ≤ 3
      unfold defendCreatureAction
      dsimp only
      split
      · show (s.playerField.map _).length ≤ 3
        rw [List.length_map]
        exact hlen
      · exact hlen
    | draw side =>
      show (drawCard s side).playerField.length ≤ 3
      cases side with
      | player =>
        unfold drawCard
        cases s.playerDeck with
        | nil => exact hlen
        | cons d rest => exact hlen
      | enemy =>
        unfold drawCard
        cases s.enemyDeck with
        | nil => exact hlen
        | cons d rest => exact hlen
    | regenerate =>
      show (regenerateEnergy s).playerField.length ≤ 3
      unfold regenerateEnergy
      dsimp only
      cases s.activePlayer
      · exact hlen
      · exact hlen
    | tick =>
      show (applyOngoingEffects s).playerField.length ≤ 3
      unfold applyOngoingEffects
      dsimp only
      show ((s.playerField.map tickCreature).filter _).length ≤ 3
      refine le_trans (List.length_filter_le _ _) ?_
      rw [List.length_map]
      exact hlen
    | setActive side => exact hlen
    | incrementTurn => exact hlen
    | setGame g => exact hlen
    | logMessage m => exact hlen

/-- A battle state whose player field already holds three creatures. -/
def sFull : BattleState :=
  { sMid with playerField := [cTie, cAttacker, cDefender] }

/-- C10 witness: deploying onto the full concrete field is rejected with only
a log entry, and the field stays at 3 creatures. -/
theorem player_field_never_exceeds_three_witness :
    deployCreature sFull cEnergy3A
        = addLog sFull "Your battlefield is full! Cannot deploy more creatures."
    ∧ (applyAction sFull (.deploy cEnergy3A)).playerField.length ≤ 3 :=
  ⟨(player_field_never_exceeds_three sFull cEnergy3A (.deploy cEnergy3A)).1 (by decide),
   (player_field_never_exceeds_three sFull cEnergy3A (.deploy cEnergy3A)).2.1 (by decide)⟩

end Battle
